import Mathlib

/-!
Shallow embedding of the code-execution subsystem of this repository:
`code_executor.py` (`CodeExecutor`), `sandbox.py` (`SandboxExecutor`),
`resource_limiter.py` (`ResourceLimiter`) and
`day_36/code_execution_tool.py` (`CodeExecutionTool`).

Modelling conventions:
* External calls (the `ast` parser, `subprocess.run`, every call into the
  container-runtime client) are modelled by oracle values describing the
  outcome of the one call the embedded code makes; a Python exception is a
  `PyExc` (class name + `str(e)` message), and Python class-based `except`
  clauses are modelled by matching on the class name.
* Python dictionaries returned by the source are modelled as structures whose
  fields are exactly the dict keys; `None` is `Option.none`.
* Python floats are modelled as exact rationals (`ℚ`); `round(x, 2)` is
  modelled as exact round-half-to-even to two decimal places.
* Side effects that allocate or touch an execution resource are recorded in a
  `List Effect` trace returned next to each result, with one entry per call
  site actually reached.
-/

/-- A Python exception value: the exception's class name and its `str(e)`
message. -/
structure PyExc where
  name : String
  msg : String
deriving DecidableEq, Repr

/-- The data of a Python `SyntaxError` raised by `ast.parse`: offending line
number and message. -/
structure SyntaxErr where
  lineno : Nat
  msg : String
deriving DecidableEq, Repr

/-- Outcome of one `ast.parse(code)` call: the source parses, `ast.parse`
raises a `SyntaxError`, or it raises an exception of some other class — on the
Python 3.11 this repository targets, `ast.parse` also raises e.g.
`UnicodeEncodeError` (lone-surrogate string literal in the source) or
`MemoryError` (deeply nested source), and an `except SyntaxError` clause does
not catch those. -/
inductive ParseOutcome where
  | ok
  | synErr (e : SyntaxErr)
  | raised (e : PyExc)
deriving DecidableEq, Repr

/-- Oracle for `ast.parse(code)`.  `ast.parse` is deterministic, so the oracle
is a function of the source text. -/
abbrev ParseOracle := String → ParseOutcome

/-- The dict returned by `CodeExecutor.validate_syntax`:
`{"valid": bool, "error": str|None}`. -/
structure ValidationOutcome where
  valid : Bool
  error : Option String
deriving DecidableEq, Repr

/-- The execution-result dict produced by `CodeExecutor.execute` and
`SandboxExecutor.execute_in_container`:
`{"success", "output", "error", "error_type"}`. -/
structure ExecutionResult where
  success : Bool
  output : Option String
  error : Option String
  error_type : Option String
deriving DecidableEq, Repr

/-- A `{"success": bool, "error": str|None}` dict (returned by
`create_container`, `cleanup`, `set_cpu_limit`, `set_memory_limit`). -/
structure OpResult where
  success : Bool
  error : Option String
deriving DecidableEq, Repr

/-- A completed `subprocess.run` call (`capture_output=True, text=True`):
exit status and captured text streams. -/
structure RunOutput where
  returncode : Int
  stdout : String
  stderr : String
deriving DecidableEq, Repr

/-- Effects recorded by the embedding: each constructor marks one call site in
the source that allocates or touches an execution resource. -/
inductive Effect where
  | spawnWorker      -- `subprocess.run` in `CodeExecutor.execute`
  | createContainer  -- `client.containers.create`/`start` in `create_container`
  | execInContainer  -- `container.exec_run` in `execute_in_container`
  | sampleStats      -- `container.stats` in `monitor_resources`
  | cleanupCall      -- entry into `SandboxExecutor.cleanup`
  | stopRemove       -- `container.stop`/`remove` inside `cleanup`
deriving DecidableEq, Repr

/-- Spec §4.3 lifecycle states of an isolated environment.  The embedding maps
each docker-level step of the source onto these states (the refinement mapping
from the code's container handling to the spec's state machine). -/
inductive EnvState where
  | Uninitialized
  | Provisioning
  | Ready
  | Executing
  | Terminating
  | Destroyed
  | ProvisionFailed
  | TeardownFailed
deriving DecidableEq, Repr

/-- Modelled from the spec (§7 error taxonomy): the tagged error kinds.  The
code itself carries `error_type` strings; this enum is the spec-side
normalization target. -/
inductive ErrorKind where
  | syn
  | run
  | timeout
  | internal
  | teardown
deriving DecidableEq, Repr

/-- Modelled from the spec (§7, §4.5 step 4): normalization of the code's
`error_type` strings into the spec's error-kind taxonomy.  `SyntaxError`,
`RuntimeError` and `TimeoutError` are the kinds the source produces by name;
every other exception class name (provisioning `ContainerError`, spawn
failures, governor failures) falls under Internal per the §7 table. -/
def errorKindOf : Option String → Option ErrorKind
  | none => none
  | some s =>
      if s = "SyntaxError" then some ErrorKind.syn
      else if s = "RuntimeError" then some ErrorKind.run
      else if s = "TimeoutError" then some ErrorKind.timeout
      else some ErrorKind.internal

/-- Python `timeout or default` on an optional number: `None` and `0` are
falsy, so both select the default (used by `CodeExecutionTool.execute`). -/
def pyOr (t : Option Nat) (d : Nat) : Nat :=
  match t with
  | none => d
  | some 0 => d
  | some (n + 1) => n + 1

/-- Python truthiness of an optional bool (the `sandbox` argument of
`CodeExecutionTool.execute`): `None` is falsy. -/
def pyTruthy (b : Option Bool) : Bool := b.getD false

/-- Python `int()` on a number: truncation toward zero. -/
def pyInt (q : ℚ) : Int := if 0 ≤ q then ⌊q⌋ else -⌊-q⌋

/-- Round-half-to-even to the nearest integer (the rounding Python's `round`
uses), on exact rationals. -/
def roundHalfEven (q : ℚ) : Int :=
  let f := ⌊q⌋
  let r := q - (f : ℚ)
  if r < 1 / 2 then f
  else if 1 / 2 < r then f + 1
  else if f % 2 = 0 then f else f + 1

/-- Python `round(x, 2)` modelled on exact rationals. -/
def round2 (q : ℚ) : ℚ := (roundHalfEven (q * 100) : ℚ) / 100

/-- `CodeExecutor.validate_syntax`: wraps `ast.parse` in
`try/except SyntaxError`, returning `{"valid", "error"}` with the
`f"Syntax error at line {e.lineno}: {e.msg}"` message on a `SyntaxError`; an
exception of any other class is not caught and propagates to the caller. -/
def CodeExecutor.validate_syntax (parse : ParseOracle) (code : String) :
    Except PyExc ValidationOutcome :=
  match parse code with
  | .ok => Except.ok ⟨true, none⟩
  | .synErr e =>
      Except.ok
        ⟨false, some ("Syntax error at line " ++ toString e.lineno ++ ": " ++ e.msg)⟩
  | .raised e => Except.error e

/-- `CodeExecutor.execute`: substitutes the default timeout only when the
argument is `None`, validates syntax, then runs `subprocess.run` (the `spawn`
oracle: `.ok` is a completed process, `.error` an exception, with
`subprocess.TimeoutExpired` recognized by class name as in the source's first
`except` clause; any other exception hits the catch-all and is reported under
its own class name).  The validation call sits outside the `try`, so a
non-`SyntaxError` parser exception propagates out of `execute`.  The effect
list records whether a worker was spawned. -/
def CodeExecutor.execute (parse : ParseOracle) (spawn : Except PyExc RunOutput)
    (default_timeout : Nat) (code : String) (timeout : Option Nat) :
    List Effect × Except PyExc ExecutionResult :=
  let timeout := match timeout with
    | none => default_timeout
    | some t => t
  match CodeExecutor.validate_syntax parse code with
  | .error e => ([], Except.error e)
  | .ok validation =>
    if !validation.valid then
      ([], Except.ok ⟨false, none, validation.error, some "SyntaxError"⟩)
    else
      match spawn with
      | .ok res =>
          if res.returncode == 0 then
            ([Effect.spawnWorker], Except.ok ⟨true, some res.stdout, none, none⟩)
          else
            ([Effect.spawnWorker],
              Except.ok ⟨false, some res.stdout, some res.stderr, some "RuntimeError"⟩)
      | .error e =>
          if e.name == "TimeoutExpired" then
            ([Effect.spawnWorker],
              Except.ok ⟨false, none,
                some ("Execution timed out after " ++ toString timeout ++ " seconds"),
                some "TimeoutError"⟩)
          else
            ([Effect.spawnWorker], Except.ok ⟨false, none, some e.msg, some e.name⟩)

/-- A docker container as the embedding sees it: identity plus the quotas the
source configures (`mem_limit` in bytes — docker reads `"{mb}m"` as mebibytes —
and `cpu_quota`/`cpu_period`). -/
structure ContainerState where
  id : Nat
  mem_limit_bytes : Nat
  cpu_quota : Int
  cpu_period : Int
deriving DecidableEq, Repr

/-- One point-in-time reading of `container.stats(stream=False)` as used by
`monitor_resources`: the cumulative CPU counters of the two internal samples
and the current memory usage.  The memory `limit` field of real docker stats
is the container's configured ceiling, so the embedding reads it from the
`ContainerState` rather than from this oracle. -/
structure StatsSample where
  cpu_total : Int
  precpu_total : Int
  system_cpu : Int
  presystem_cpu : Int
  memory_usage : Nat
deriving DecidableEq, Repr

/-- Oracle for `container.stats(stream=False)`. -/
inductive StatsOutcome where
  | ok (sample : StatsSample)
  | raised (e : PyExc)
deriving DecidableEq, Repr

/-- Oracle for `container.update(...)`. -/
inductive UpdateOutcome where
  | ok
  | raised (e : PyExc)
deriving DecidableEq, Repr

/-- The dict returned by `ResourceLimiter.monitor_resources`: on success
`{"success": True, "cpu_percent", "memory_mb", "memory_percent", "error": None}`,
on failure `{"success": False, "error": str(e)}` (the numeric keys absent). -/
structure MonitorResult where
  success : Bool
  cpu_percent : Option ℚ
  memory_mb : Option ℚ
  memory_percent : Option ℚ
  error : Option String
deriving DecidableEq, Repr

/-- `ResourceLimiter.set_cpu_limit`: `container.update(cpu_quota=int(q*100000),
cpu_period=100000)` inside `try/except Exception`. -/
def ResourceLimiter.set_cpu_limit (w : UpdateOutcome) (c : ContainerState)
    (cpu_quota : ℚ) : ContainerState × OpResult :=
  match w with
  | .ok =>
      ({ c with cpu_quota := pyInt (cpu_quota * 100000), cpu_period := 100000 },
        ⟨true, none⟩)
  | .raised e => (c, ⟨false, some e.msg⟩)

/-- `ResourceLimiter.set_memory_limit`: `container.update(mem_limit=f"{mb}m")`
inside `try/except Exception` (docker reads the `"m"` suffix as mebibytes). -/
def ResourceLimiter.set_memory_limit (w : UpdateOutcome) (c : ContainerState)
    (limit_mb : Nat) : ContainerState × OpResult :=
  match w with
  | .ok => ({ c with mem_limit_bytes := limit_mb * 1048576 }, ⟨true, none⟩)
  | .raised e => (c, ⟨false, some e.msg⟩)

/-- `ResourceLimiter.monitor_resources`: reads one stats sample and computes
`cpu_percent` from the delta of cumulative container CPU time over the delta of
system CPU time (0.0 when the system delta is not positive), `memory_mb`, and
`memory_percent` against the configured ceiling (0.0 when the ceiling is not
positive); each reported number passes through Python `round(x, 2)`.  All of it
sits inside `try/except Exception` returning a structured failure. -/
def ResourceLimiter.monitor_resources (w : StatsOutcome) (c : ContainerState) :
    MonitorResult :=
  match w with
  | .raised e => ⟨false, none, none, none, some e.msg⟩
  | .ok sp =>
      let cpu_delta : Int := sp.cpu_total - sp.precpu_total
      let system_delta : Int := sp.system_cpu - sp.presystem_cpu
      let cpu_percent : ℚ :=
        if system_delta > 0 then ((cpu_delta : ℚ) / (system_delta : ℚ)) * 100
        else 0
      let memory_usage : Nat := sp.memory_usage
      let memory_limit : Nat := c.mem_limit_bytes
      let memory_mb : ℚ := (memory_usage : ℚ) / 1048576
      let memory_percent : ℚ :=
        if memory_limit > 0 then ((memory_usage : ℚ) / (memory_limit : ℚ)) * 100
        else 0
      ⟨true, some (round2 cpu_percent), some (round2 memory_mb),
        some (round2 memory_percent), none⟩

/-- The mutable state of a `SandboxExecutor` instance: its configuration and
`self.container` (`None` until `create_container` succeeds). -/
structure SandboxExecutor where
  image : String
  timeout : Nat
  memory_limit_mb : Nat
  cpu_limit : ℚ
  container : Option ContainerState
deriving DecidableEq, Repr

/-- Oracle for the `create_container` body (image lookup/pull, `containers.create`,
`start`): `.ok cid` allocates a container, `.dockerError` is a `DockerException`
(caught by the source's handler), `.raised` is any other exception (which the
source does not catch there). -/
inductive CreateOutcome where
  | ok (cid : Nat)
  | dockerError (msg : String)
  | raised (e : PyExc)
deriving DecidableEq, Repr

/-- Oracle for `container.exec_run(...)`: `.finished` is a completed command
(`demux=True` output pair, `None` for an empty stream); `.deadline e` marks the
distinguished event that the wall-clock deadline elapsed before completion and
the runtime client raised `e`; `.raised e` is any other exception.  The source
wraps the call in `try/except Exception`, which cannot tell the last two
apart. -/
inductive ExecOutcome where
  | finished (exit_code : Int) (stdout stderr : Option String)
  | deadline (e : PyExc)
  | raised (e : PyExc)
deriving DecidableEq, Repr

/-- Oracle for `container.stop(timeout=1)` / `container.remove()` inside
`cleanup`: `.dockerError` is a `DockerException` (caught), `.raised` any other
exception (uncaught there). -/
inductive CleanupOutcome where
  | ok
  | dockerError (msg : String)
  | raised (e : PyExc)
deriving DecidableEq, Repr

/-- All the external-world outcomes one sandboxed orchestrator call can
consume: `docker.from_env` (raises iff `some`), the two `create_container`
attempts the control flow can reach (one from `__enter__`, one retried inside
`execute_in_container`), `exec_run`, `stats`, and `stop`/`remove`. -/
structure SandboxWorld where
  from_env : Option PyExc
  create1 : CreateOutcome
  create2 : CreateOutcome
  exec : ExecOutcome
  stats : StatsOutcome
  stop_remove : CleanupOutcome
deriving DecidableEq, Repr

/-- `SandboxExecutor.create_container`: on success stores a started container
configured with the instance's quotas (`mem_limit=f"{mb}m"` i.e. mb·2^20 bytes,
`cpu_quota=int(cpu_limit*100000)`, `cpu_period=100000`, no network) and returns
`{"success": True}`; a `DockerException` yields `{"success": False, "error":
str(e)}`; any other exception propagates.  Also returns the effect/state trace
of the attempt (spec states: Provisioning → Ready or ProvisionFailed). -/
def SandboxExecutor.create_container (w : CreateOutcome) (s : SandboxExecutor) :
    (List Effect × List EnvState) × SandboxExecutor × Except PyExc OpResult :=
  match w with
  | .ok cid =>
      (([Effect.createContainer], [EnvState.Provisioning, EnvState.Ready]),
        { s with container := some ⟨cid, s.memory_limit_mb * 1048576,
            pyInt (s.cpu_limit * 100000), 100000⟩ },
        .ok ⟨true, none⟩)
  | .dockerError m =>
      (([Effect.createContainer], [EnvState.Provisioning, EnvState.ProvisionFailed]),
        s, .ok ⟨false, some m⟩)
  | .raised e =>
      (([Effect.createContainer], [EnvState.Provisioning, EnvState.ProvisionFailed]),
        s, .error e)

/-- The `try/except` body of `execute_in_container` around `exec_run`: exit
code 0 is a success with the decoded stdout; a non-zero exit is a
`RuntimeError`-typed failure carrying stdout and stderr (empty string for an
absent stream); any exception — including one raised at deadline expiry — is
caught by the catch-all and reported under its own class name. -/
def SandboxExecutor.exec_body (we : ExecOutcome) : ExecutionResult :=
  match we with
  | .finished rc out err =>
      let stdout := out.getD ""
      let stderr := err.getD ""
      if rc == 0 then ⟨true, some stdout, none, none⟩
      else ⟨false, some stdout, some stderr, some "RuntimeError"⟩
  | .deadline e => ⟨false, none, some e.msg, some e.name⟩
  | .raised e => ⟨false, none, some e.msg, some e.name⟩

/-- `SandboxExecutor.execute_in_container`: retries `create_container` when no
container is held (returning a `ContainerError`-typed failure if that retry
reports failure, propagating if it raises), then runs the command (spec states:
Executing → Ready, execution exceptions being caught inside). -/
def SandboxExecutor.execute_in_container (wc : CreateOutcome) (we : ExecOutcome)
    (s : SandboxExecutor) (code : String) :
    (List Effect × List EnvState) × SandboxExecutor × Except PyExc ExecutionResult :=
  match s.container with
  | some _ =>
      (([Effect.execInContainer], [EnvState.Executing, EnvState.Ready]), s,
        .ok (SandboxExecutor.exec_body we))
  | none =>
      let step := SandboxExecutor.create_container wc s
      match step.2.2 with
      | .error e => (step.1, step.2.1, .error e)
      | .ok cres =>
          if cres.success then
            ((step.1.1 ++ [Effect.execInContainer],
              step.1.2 ++ [EnvState.Executing, EnvState.Ready]), step.2.1,
              .ok (SandboxExecutor.exec_body we))
          else
            (step.1, step.2.1,
              .ok ⟨false, none,
                some ("Container creation failed: " ++ cres.error.getD ""),
                some "ContainerError"⟩)

/-- `SandboxExecutor.get_resource_usage`: `{"success": False, "error": "No
container running"}` without a container, else one governor sample (read-only:
the sandbox state is untouched). -/
def SandboxExecutor.get_resource_usage (w : StatsOutcome) (s : SandboxExecutor) :
    List Effect × MonitorResult :=
  match s.container with
  | none => ([], ⟨false, none, none, none, some "No container running"⟩)
  | some c => ([Effect.sampleStats], ResourceLimiter.monitor_resources w c)

/-- The dict returned by `SandboxExecutor.update_limits`: `{"success", "error"}`
on the no-container path, else `{"success": True, "results": {...}}` where the
`memory`/`cpu` entries are present exactly for the arguments supplied. -/
structure UpdateLimitsResult where
  success : Bool
  error : Option String
  memory : Option OpResult
  cpu : Option OpResult
deriving DecidableEq, Repr

/-- `SandboxExecutor.update_limits`: fails with "No container running" when no
container is held; otherwise applies `set_memory_limit` and/or `set_cpu_limit`
to the live container — each argument optional, an omitted one touching
nothing — and returns `{"success": True, "results": ...}` (the overall flag not
inspecting the per-quota results, as in the source). -/
def SandboxExecutor.update_limits (wm wc : UpdateOutcome) (s : SandboxExecutor)
    (memory_mb : Option Nat) (cpu_limit : Option ℚ) :
    SandboxExecutor × UpdateLimitsResult :=
  match s.container with
  | none => (s, ⟨false, some "No container running", none, none⟩)
  | some c =>
      let memStep : ContainerState × Option OpResult :=
        match memory_mb with
        | some mb =>
            let r := ResourceLimiter.set_memory_limit wm c mb
            (r.1, some r.2)
        | none => (c, none)
      let cpuStep : ContainerState × Option OpResult :=
        match cpu_limit with
        | some q =>
            let r := ResourceLimiter.set_cpu_limit wc memStep.1 q
            (r.1, some r.2)
        | none => (memStep.1, none)
      ({ s with container := some cpuStep.1 },
        ⟨true, none, memStep.2, cpuStep.2⟩)

/-- `SandboxExecutor.cleanup`: with no container held it is a no-op success;
otherwise it stops and removes the container (clearing `self.container`), a
`DockerException` yielding a structured failure with the container still
referenced, any other exception propagating (spec states: Terminating →
Destroyed or TeardownFailed). -/
def SandboxExecutor.cleanup (w : CleanupOutcome) (s : SandboxExecutor) :
    (List Effect × List EnvState) × SandboxExecutor × Except PyExc OpResult :=
  match s.container with
  | none => (([Effect.cleanupCall], []), s, .ok ⟨true, none⟩)
  | some _ =>
      match w with
      | .ok =>
          (([Effect.cleanupCall, Effect.stopRemove],
            [EnvState.Terminating, EnvState.Destroyed]),
            { s with container := none }, .ok ⟨true, none⟩)
      | .dockerError m =>
          (([Effect.cleanupCall, Effect.stopRemove],
            [EnvState.Terminating, EnvState.TeardownFailed]),
            s, .ok ⟨false, some m⟩)
      | .raised e =>
          (([Effect.cleanupCall, Effect.stopRemove],
            [EnvState.Terminating, EnvState.TeardownFailed]),
            s, .error e)

/-- The result dict of `CodeExecutionTool.execute`: an execution result plus
the `sandboxed` flag and the optional attached `resource_usage`
(`cpu_percent`, `memory_mb`). -/
structure OrchResult where
  success : Bool
  output : Option String
  error : Option String
  error_type : Option String
  sandboxed : Bool
  resource_usage : Option (ℚ × ℚ)
deriving DecidableEq, Repr

/-- One full orchestrator call as the embedding reports it: the returned dict,
the effect trace, and the ordered spec-state trace of the isolated environment
(empty when none was involved). -/
structure SandboxRun where
  result : OrchResult
  effects : List Effect
  env : List EnvState
deriving DecidableEq, Repr

/-- The `except Exception` branch of `CodeExecutionTool._execute_sandboxed`:
`{"success": False, "output": None, "error": str(e), "error_type":
type(e).__name__, "sandboxed": True}`. -/
def CodeExecutionTool.exc_result (e : PyExc) : OrchResult :=
  ⟨false, none, some e.msg, some e.name, true, none⟩

/-- `CodeExecutionTool._execute_sandboxed`: builds a `SandboxExecutor`
(`docker.from_env` may raise), enters the `with` block (`__enter__` runs
`create_container`, discarding its result; if `__enter__` raises, `__exit__`
never runs), executes in the container, marks the result sandboxed, attaches
`resource_usage` when sampling succeeds, and leaves the block (`__exit__` runs
`cleanup` on every exit of the body, normal or raising; an exception raised by
`cleanup` itself replaces the outcome).  Every escaping exception is caught by
the surrounding `except Exception` and returned as data. -/
def CodeExecutionTool.execute_sandboxed (w : SandboxWorld) (memory_limit_mb : Nat)
    (cpu_limit : ℚ) (timeout : Nat) (code : String) : SandboxRun :=
  match w.from_env with
  | some e => ⟨CodeExecutionTool.exc_result e, [], []⟩
  | none =>
    let s0 : SandboxExecutor :=
      { image := "python:3.11-slim", timeout := timeout,
        memory_limit_mb := memory_limit_mb, cpu_limit := cpu_limit,
        container := none }
    let enter := SandboxExecutor.create_container w.create1 s0
    match enter.2.2 with
    | .error e =>
        ⟨CodeExecutionTool.exc_result e, enter.1.1,
          EnvState.Uninitialized :: enter.1.2⟩
    | .ok _ =>
      let body := SandboxExecutor.execute_in_container w.create2 w.exec enter.2.1 code
      match body.2.2 with
      | .error e =>
          let exit := SandboxExecutor.cleanup w.stop_remove body.2.1
          let effects := enter.1.1 ++ body.1.1 ++ exit.1.1
          let env := EnvState.Uninitialized :: (enter.1.2 ++ body.1.2 ++ exit.1.2)
          match exit.2.2 with
          | .ok _ => ⟨CodeExecutionTool.exc_result e, effects, env⟩
          | .error e2 => ⟨CodeExecutionTool.exc_result e2, effects, env⟩
      | .ok r =>
          let usage := SandboxExecutor.get_resource_usage w.stats body.2.1
          let ru : Option (ℚ × ℚ) :=
            if usage.2.success then
              some (usage.2.cpu_percent.getD 0, usage.2.memory_mb.getD 0)
            else none
          let res : OrchResult :=
            ⟨r.success, r.output, r.error, r.error_type, true, ru⟩
          let exit := SandboxExecutor.cleanup w.stop_remove body.2.1
          let effects := enter.1.1 ++ body.1.1 ++ usage.1 ++ exit.1.1
          let env := EnvState.Uninitialized :: (enter.1.2 ++ body.1.2 ++ exit.1.2)
          match exit.2.2 with
          | .ok _ => ⟨res, effects, env⟩
          | .error e2 => ⟨CodeExecutionTool.exc_result e2, effects, env⟩

/-- Configuration of a `CodeExecutionTool` instance (its `CodeExecutor` is
constructed with `default_timeout = timeout`). -/
structure CodeExecutionTool where
  use_sandbox : Bool
  memory_limit_mb : Nat
  cpu_limit : ℚ
  timeout : Nat
deriving DecidableEq, Repr

/-- `CodeExecutionTool.execute`: replaces a falsy `timeout` argument (`None` or
`0`) by the instance default via `timeout or self.timeout`, runs the syntax
gate and returns a `SyntaxError`-typed, non-sandboxed failure on invalid
source; otherwise routes to the sandboxed path when `self.use_sandbox or
sandbox` is truthy, and to `CodeExecutor.execute` (with `sandboxed=False`
added) otherwise.  The validation call is not inside any `try`, so a
non-`SyntaxError` parser exception propagates out of `execute` to the caller,
in every mode. -/
def CodeExecutionTool.execute (parse : ParseOracle) (spawn : Except PyExc RunOutput)
    (w : SandboxWorld) (tool : CodeExecutionTool) (code : String)
    (sandbox : Option Bool) (timeout : Option Nat) : Except PyExc SandboxRun :=
  let timeout := pyOr timeout tool.timeout
  match CodeExecutor.validate_syntax parse code with
  | .error e => Except.error e
  | .ok validation =>
    if !validation.valid then
      Except.ok ⟨⟨false, none, validation.error, some "SyntaxError", false, none⟩, [], []⟩
    else if tool.use_sandbox || pyTruthy sandbox then
      Except.ok (CodeExecutionTool.execute_sandboxed w tool.memory_limit_mb
        tool.cpu_limit timeout code)
    else
      match CodeExecutor.execute parse spawn tool.timeout code (some timeout) with
      | (effects, Except.error e) => Except.error e
      | (effects, Except.ok r) =>
          Except.ok ⟨⟨r.success, r.output, r.error, r.error_type, false, none⟩,
            effects, []⟩

/-- The dict returned by `CodeExecutionTool.update_limits`:
`{"success": True, "memory_mb", "cpu_limit"}`. -/
structure ToolUpdateResult where
  success : Bool
  memory_mb : Nat
  cpu_limit : ℚ
deriving DecidableEq, Repr

/-- `CodeExecutionTool.update_limits`: stores any supplied quota in the
instance configuration (used by later sandboxed executions), leaving an
omitted one unchanged; it touches no live container. -/
def CodeExecutionTool.update_limits (tool : CodeExecutionTool)
    (memory_mb : Option Nat) (cpu_limit : Option ℚ) :
    CodeExecutionTool × ToolUpdateResult :=
  let tool1 := match memory_mb with
    | some mb => { tool with memory_limit_mb := mb }
    | none => tool
  let tool2 := match cpu_limit with
    | some q => { tool1 with cpu_limit := q }
    | none => tool1
  (tool2, ⟨true, tool2.memory_limit_mb, tool2.cpu_limit⟩)

/-- The §3 invariant on an execution result, as a decidable check: a failure
carries a non-null error and a set error kind; a success carries neither. -/
def ExecutionResult.invariantB (r : ExecutionResult) : Bool :=
  if r.success then r.error.isNone && r.error_type.isNone
  else r.error.isSome && r.error_type.isSome

/-- The §3 invariant on an orchestrator result. -/
def OrchResult.invariantB (r : OrchResult) : Bool :=
  if r.success then r.error.isNone && r.error_type.isNone
  else r.error.isSome && r.error_type.isSome

/-- The §3 invariant on an operation that may instead propagate an exception:
it constrains exactly the results the operation actually produces. -/
def invariantOnOk : Except PyExc ExecutionResult → Bool
  | .ok r => r.invariantB
  | .error _ => true

/-- The §3 invariant on an orchestrator call that may instead propagate an
exception: it constrains exactly the results the call actually returns. -/
def orchInvariantOnOk : Except PyExc SandboxRun → Bool
  | .ok r => r.result.invariantB
  | .error _ => true

/-! ## Helper lemmas -/

/-- Any result the direct executor produces satisfies the §3 invariant. -/
theorem invariantB_codeExecutor (parse : ParseOracle) (spawn : Except PyExc RunOutput)
    (dt : Nat) (code : String) (t : Option Nat) :
    invariantOnOk (CodeExecutor.execute parse spawn dt code t).2 = true := by
  cases hp : parse code
  case synErr e =>
    simp [CodeExecutor.execute, CodeExecutor.validate_syntax, hp, invariantOnOk,
      ExecutionResult.invariantB]
  case raised e =>
    simp [CodeExecutor.execute, CodeExecutor.validate_syntax, hp, invariantOnOk]
  case ok =>
    cases spawn
    case ok res =>
      rcases hb : (res.returncode == 0) with _ | _ <;>
        simp [CodeExecutor.execute, CodeExecutor.validate_syntax, hp, hb,
          invariantOnOk, ExecutionResult.invariantB]
    case error e =>
      rcases hb : (e.name == "TimeoutExpired") with _ | _ <;>
        simp [CodeExecutor.execute, CodeExecutor.validate_syntax, hp, hb,
          invariantOnOk, ExecutionResult.invariantB]

/-- The `exec_run` try-block result always satisfies the §3 invariant. -/
theorem invariantB_exec_body (we : ExecOutcome) :
    (SandboxExecutor.exec_body we).invariantB = true := by
  unfold SandboxExecutor.exec_body ExecutionResult.invariantB
  cases we <;> simp <;> split <;> simp

/-- Any result `execute_in_container` produces satisfies the §3 invariant. -/
theorem invariantB_execute_in_container (wc : CreateOutcome) (we : ExecOutcome)
    (s : SandboxExecutor) (code : String) :
    invariantOnOk (SandboxExecutor.execute_in_container wc we s code).2.2 = true := by
  unfold SandboxExecutor.execute_in_container
  cases s.container <;> cases wc <;>
    simp [invariantOnOk, SandboxExecutor.create_container] <;>
    first
      | exact invariantB_exec_body _
      | simp [ExecutionResult.invariantB]

/-- Any result of the sandboxed orchestrator path satisfies the §3 invariant. -/
theorem invariantB_execute_sandboxed (w : SandboxWorld) (mem : Nat) (cpu : ℚ)
    (t : Nat) (code : String) :
    (CodeExecutionTool.execute_sandboxed w mem cpu t code).result.invariantB = true := by
  obtain ⟨fe, c1, c2, ex, st, cl⟩ := w
  unfold CodeExecutionTool.execute_sandboxed
  cases fe <;> cases c1 <;> cases c2 <;> cases ex <;> cases st <;> cases cl <;>
    simp [CodeExecutionTool.exc_result, OrchResult.invariantB,
      SandboxExecutor.create_container, SandboxExecutor.execute_in_container,
      SandboxExecutor.exec_body, SandboxExecutor.cleanup,
      SandboxExecutor.get_resource_usage, ResourceLimiter.monitor_resources] <;>
    split <;> simp

/-! ## Claims -/

/-- Claim C1: for every syntactically invalid source and in every execution
mode (any `use_sandbox` configuration and any `sandbox`/`timeout` arguments),
the orchestrator's `execute` returns `success=false` with the `SyntaxError`
kind (spec kind Syntax) and `sandboxed=false`, with an empty effect trace and
an empty environment trace — neither the direct executor nor the isolated
sandbox is invoked and no execution resource is allocated. -/
theorem C1_syntax_gate_short_circuits (parse : ParseOracle)
    (spawn : Except PyExc RunOutput) (w : SandboxWorld) (tool : CodeExecutionTool)
    (code : String) (sandbox : Option Bool) (timeout : Option Nat)
    (err : SyntaxErr) (hp : parse code = ParseOutcome.synErr err) :
    CodeExecutionTool.execute parse spawn w tool code sandbox timeout =
      Except.ok ⟨⟨false, none,
        some ("Syntax error at line " ++ toString err.lineno ++ ": " ++ err.msg),
        some "SyntaxError", false, none⟩, [], []⟩
    ∧ errorKindOf (some "SyntaxError") = some ErrorKind.syn := by
  refine ⟨?_, by simp [errorKindOf]⟩
  simp [CodeExecutionTool.execute, CodeExecutor.validate_syntax, hp]

/-- Witness for C1 at a concrete invalid source and both execution modes. -/
theorem C1_syntax_gate_short_circuits_witness :
    (CodeExecutionTool.execute (fun _ => ParseOutcome.synErr ⟨1, "was never closed"⟩)
        (Except.ok ⟨0, "", ""⟩)
        ⟨none, CreateOutcome.ok 7, CreateOutcome.ok 8,
          ExecOutcome.finished 0 (some "hi") none,
          StatsOutcome.ok ⟨5, 1, 10, 2, 1048576⟩, CleanupOutcome.ok⟩
        ⟨true, 128, 1 / 2, 30⟩ "print(1" none none =
      Except.ok ⟨⟨false, none, some "Syntax error at line 1: was never closed",
        some "SyntaxError", false, none⟩, [], []⟩)
    ∧ errorKindOf (some "SyntaxError") = some ErrorKind.syn :=
  C1_syntax_gate_short_circuits (fun _ => ParseOutcome.synErr ⟨1, "was never closed"⟩)
    (Except.ok ⟨0, "", ""⟩)
    ⟨none, CreateOutcome.ok 7, CreateOutcome.ok 8,
      ExecOutcome.finished 0 (some "hi") none,
      StatsOutcome.ok ⟨5, 1, 10, 2, 1048576⟩, CleanupOutcome.ok⟩
    ⟨true, 128, 1 / 2, 30⟩ "print(1" none none ⟨1, "was never closed"⟩ rfl

/-- Claim C2: every operation producing an execution result — the direct
executor, the isolated `execute_in_container` (on every result it actually
produces), and the orchestrator's `execute` — maintains the invariant that a
failed result carries a non-null error and a set error kind while a successful
result carries neither, for every input and every external-world behavior. -/
theorem C2_result_invariant (parse : ParseOracle) (spawn : Except PyExc RunOutput)
    (dt : Nat) (code : String) (t : Option Nat) (wc : CreateOutcome)
    (we : ExecOutcome) (s : SandboxExecutor) (w : SandboxWorld)
    (tool : CodeExecutionTool) (sandbox : Option Bool) :
    invariantOnOk (CodeExecutor.execute parse spawn dt code t).2 = true
    ∧ invariantOnOk (SandboxExecutor.execute_in_container wc we s code).2.2 = true
    ∧ orchInvariantOnOk (CodeExecutionTool.execute parse spawn w tool code sandbox t)
        = true := by
  refine ⟨invariantB_codeExecutor parse spawn dt code t,
    invariantB_execute_in_container wc we s code, ?_⟩
  unfold CodeExecutionTool.execute
  cases hp : parse code
  · simp only [CodeExecutor.validate_syntax, hp]
    simp only [Bool.not_true, Bool.false_eq_true, if_false]
    split
    · simp [orchInvariantOnOk, invariantB_execute_sandboxed]
    · cases spawn
      case ok res =>
        rcases hb : (res.returncode == 0) with _ | _ <;>
          simp [CodeExecutor.execute, CodeExecutor.validate_syntax, hp, hb,
            orchInvariantOnOk, OrchResult.invariantB]
      case error e =>
        rcases hb : (e.name == "TimeoutExpired") with _ | _ <;>
          simp [CodeExecutor.execute, CodeExecutor.validate_syntax, hp, hb,
            orchInvariantOnOk, OrchResult.invariantB]
  · simp [CodeExecutor.validate_syntax, hp, orchInvariantOnOk, OrchResult.invariantB]
  · simp [CodeExecutor.validate_syntax, hp, orchInvariantOnOk]

/-- Claim C3 counterexample: inside the isolated environment a deadline expiry
surfaces as whatever exception the runtime client raises; the source's
catch-all reports that exception's own class name, so a deadline exception of
class `ReadTimeout` yields an error type that normalizes to Internal, not
Timeout — refuting the claim that a timeout inside the isolated environment is
reported with the Timeout error kind. -/
theorem C3_counterexample :
    (SandboxExecutor.execute_in_container (CreateOutcome.ok 9)
        (ExecOutcome.deadline ⟨"ReadTimeout", "Read timed out. (read timeout=5)"⟩)
        ⟨"python:3.11-slim", 5, 128, 1 / 2, some ⟨1, 134217728, 50000, 100000⟩⟩
        "while True: pass").2.2 =
      Except.ok ⟨false, none, some "Read timed out. (read timeout=5)",
        some "ReadTimeout"⟩
    ∧ errorKindOf (some "ReadTimeout") ≠ some ErrorKind.timeout
    ∧ errorKindOf (some "ReadTimeout") = some ErrorKind.internal := by
  exact ⟨rfl, by decide, by decide⟩

/-- Claim C3 as amended: in direct mode a worker that has not completed by the
deadline (`subprocess.TimeoutExpired`) is reported as `success=false` with the
Timeout kind; in the isolated environment a deadline expiry surfaces as the
exception the runtime client raises and the result carries that exception's
own class name as its error type (Timeout kind only when that class is named
`TimeoutError`). -/
theorem C3_amended_timeout_reporting (parse : ParseOracle) (code : String)
    (hp : parse code = ParseOutcome.ok) (dt : Nat) (t : Option Nat) (m : String)
    (wc : CreateOutcome) (s : SandboxExecutor) (c : ContainerState)
    (hc : s.container = some c) (e : PyExc) :
    (CodeExecutor.execute parse (.error ⟨"TimeoutExpired", m⟩) dt code t).2 =
      Except.ok ⟨false, none,
        some ("Execution timed out after " ++ toString (t.getD dt) ++ " seconds"),
        some "TimeoutError"⟩
    ∧ errorKindOf (some "TimeoutError") = some ErrorKind.timeout
    ∧ (SandboxExecutor.execute_in_container wc (.deadline e) s code).2.2 =
      Except.ok ⟨false, none, some e.msg, some e.name⟩ := by
  refine ⟨?_, by decide, ?_⟩
  · cases t <;> simp [CodeExecutor.execute, CodeExecutor.validate_syntax, hp]
  · simp [SandboxExecutor.execute_in_container, hc, SandboxExecutor.exec_body]

/-- Witness for the amended C3 at concrete inputs in both modes. -/
theorem C3_amended_timeout_reporting_witness :
    ((CodeExecutor.execute (fun _ => ParseOutcome.ok)
        (.error ⟨"TimeoutExpired", "Command timed out after 2 seconds"⟩)
        30 "while True: pass" (some 2)).2 =
      Except.ok ⟨false, none, some "Execution timed out after 2 seconds",
        some "TimeoutError"⟩)
    ∧ errorKindOf (some "TimeoutError") = some ErrorKind.timeout
    ∧ (SandboxExecutor.execute_in_container (CreateOutcome.ok 9)
        (.deadline ⟨"ReadTimeout", "Read timed out."⟩)
        ⟨"python:3.11-slim", 2, 128, 1 / 2, some ⟨1, 134217728, 50000, 100000⟩⟩
        "while True: pass").2.2 =
      Except.ok ⟨false, none, some "Read timed out.", some "ReadTimeout"⟩ :=
  C3_amended_timeout_reporting (fun _ => ParseOutcome.ok) "while True: pass" rfl 30
    (some 2)
    "Command timed out after 2 seconds" (CreateOutcome.ok 9)
    ⟨"python:3.11-slim", 2, 128, 1 / 2, some ⟨1, 134217728, 50000, 100000⟩⟩
    ⟨1, 134217728, 50000, 100000⟩ rfl ⟨"ReadTimeout", "Read timed out."⟩

/-- Claim C5: for a valid source whose worker completes within the deadline, a
non-zero exit status yields `success=false` with the Runtime kind, the error
field carrying the captured stderr and the output field preserving the stdout
captured before the exit; exit status zero yields `success=true` with the
output exactly the captured stdout — in both the direct executor and the
isolated environment. -/
theorem C5_exit_status_reporting (parse : ParseOracle) (code : String)
    (hp : parse code = ParseOutcome.ok) (dt : Nat) (t : Option Nat) (out err : String)
    (rc : Int) (hrc : rc ≠ 0) (wc : CreateOutcome) (s : SandboxExecutor)
    (c : ContainerState) (hc : s.container = some c) (so se : Option String) :
    (CodeExecutor.execute parse (.ok ⟨rc, out, err⟩) dt code t).2 =
      Except.ok ⟨false, some out, some err, some "RuntimeError"⟩
    ∧ (CodeExecutor.execute parse (.ok ⟨0, out, err⟩) dt code t).2 =
      Except.ok ⟨true, some out, none, none⟩
    ∧ (SandboxExecutor.execute_in_container wc (.finished rc so se) s code).2.2 =
      Except.ok ⟨false, some (so.getD ""), some (se.getD ""), some "RuntimeError"⟩
    ∧ (SandboxExecutor.execute_in_container wc (.finished 0 so se) s code).2.2 =
      Except.ok ⟨true, some (so.getD ""), none, none⟩
    ∧ errorKindOf (some "RuntimeError") = some ErrorKind.run := by
  refine ⟨?_, ?_, ?_, ?_, by decide⟩ <;>
    simp [CodeExecutor.execute, CodeExecutor.validate_syntax, hp, hrc,
      SandboxExecutor.execute_in_container, hc, SandboxExecutor.exec_body]

/-- Witness for C5 at a concrete source, exit statuses 1 and 0, both modes. -/
theorem C5_exit_status_reporting_witness :
    ((CodeExecutor.execute (fun _ => ParseOutcome.ok)
        (.ok ⟨1, "partial out\n", "ZeroDivisionError: division by zero\n"⟩)
        30 "print(1); x = 1 / 0" none).2 =
      Except.ok ⟨false, some "partial out\n",
        some "ZeroDivisionError: division by zero\n", some "RuntimeError"⟩)
    ∧ ((CodeExecutor.execute (fun _ => ParseOutcome.ok)
        (.ok ⟨0, "partial out\n", "ZeroDivisionError: division by zero\n"⟩)
        30 "print(1); x = 1 / 0" none).2 =
      Except.ok ⟨true, some "partial out\n", none, none⟩)
    ∧ ((SandboxExecutor.execute_in_container (CreateOutcome.ok 4)
        (.finished 1 (some "partial out\n") (some "Traceback\n"))
        ⟨"python:3.11-slim", 30, 128, 1 / 2, some ⟨2, 134217728, 50000, 100000⟩⟩
        "print(1); x = 1 / 0").2.2 =
      Except.ok ⟨false, some "partial out\n", some "Traceback\n", some "RuntimeError"⟩)
    ∧ ((SandboxExecutor.execute_in_container (CreateOutcome.ok 4)
        (.finished 0 (some "partial out\n") (some "Traceback\n"))
        ⟨"python:3.11-slim", 30, 128, 1 / 2, some ⟨2, 134217728, 50000, 100000⟩⟩
        "print(1); x = 1 / 0").2.2 =
      Except.ok ⟨true, some "partial out\n", none, none⟩)
    ∧ errorKindOf (some "RuntimeError") = some ErrorKind.run :=
  C5_exit_status_reporting (fun _ => ParseOutcome.ok) "print(1); x = 1 / 0" rfl 30 none
    "partial out\n" "ZeroDivisionError: division by zero\n" 1 (by decide)
    (CreateOutcome.ok 4)
    ⟨"python:3.11-slim", 30, 128, 1 / 2, some ⟨2, 134217728, 50000, 100000⟩⟩
    ⟨2, 134217728, 50000, 100000⟩ rfl (some "partial out\n") (some "Traceback\n")

/-- Claim C6: an infrastructure failure — the direct worker cannot be spawned
(any exception outside the named `SyntaxError`/`RuntimeError`/`TimeoutError`/
`TimeoutExpired` classes), or provisioning of the isolated environment fails
with an allocation error — is reported under the Internal kind, the
provisioning case surfacing as a `ContainerError`-typed failure. -/
theorem C6_internal_kind (parse : ParseOracle) (code : String)
    (hp : parse code = ParseOutcome.ok) (dt : Nat) (t : Option Nat) (e : PyExc)
    (h1 : e.name ≠ "TimeoutExpired") (h2 : e.name ≠ "SyntaxError")
    (h3 : e.name ≠ "RuntimeError") (h4 : e.name ≠ "TimeoutError")
    (we : ExecOutcome) (s : SandboxExecutor) (hs : s.container = none)
    (m : String) :
    (CodeExecutor.execute parse (.error e) dt code t).2 =
      Except.ok ⟨false, none, some e.msg, some e.name⟩
    ∧ errorKindOf (some e.name) = some ErrorKind.internal
    ∧ (SandboxExecutor.execute_in_container (.dockerError m) we s code).2.2 =
      Except.ok ⟨false, none, some ("Container creation failed: " ++ m),
        some "ContainerError"⟩
    ∧ errorKindOf (some "ContainerError") = some ErrorKind.internal := by
  refine ⟨?_, ?_, ?_, by decide⟩
  · simp [CodeExecutor.execute, CodeExecutor.validate_syntax, hp, h1]
  · simp [errorKindOf, h2, h3, h4]
  · simp [SandboxExecutor.execute_in_container, hs, SandboxExecutor.create_container]

/-- Witness for C6: an `OSError` spawn failure and a failed provisioning. -/
theorem C6_internal_kind_witness :
    ((CodeExecutor.execute (fun _ => ParseOutcome.ok)
        (.error ⟨"OSError", "out of file descriptors"⟩) 30 "print(1)" none).2 =
      Except.ok ⟨false, none, some "out of file descriptors", some "OSError"⟩)
    ∧ errorKindOf (some "OSError") = some ErrorKind.internal
    ∧ ((SandboxExecutor.execute_in_container
        (.dockerError "Error while fetching server API version")
        (ExecOutcome.finished 0 none none)
        ⟨"python:3.11-slim", 30, 128, 1 / 2, none⟩ "print(1)").2.2 =
      Except.ok ⟨false, none,
        some "Container creation failed: Error while fetching server API version",
        some "ContainerError"⟩)
    ∧ errorKindOf (some "ContainerError") = some ErrorKind.internal :=
  C6_internal_kind (fun _ => ParseOutcome.ok) "print(1)" rfl 30 none
    ⟨"OSError", "out of file descriptors"⟩ (by decide) (by decide) (by decide)
    (by decide) (ExecOutcome.finished 0 none none)
    ⟨"python:3.11-slim", 30, 128, 1 / 2, none⟩ rfl
    "Error while fetching server API version"

/-- Claim C4: for every isolated execution against a freshly provisioned
environment (provisioning succeeded on the `__enter__` attempt or on the retry
inside `execute_in_container`) and for every behavior of the command run, the
stats sampling and the teardown calls — normal completion, runtime failure,
a deadline exception, any other exception, and even an exception raised by
teardown itself — the scoped `with` acquisition invokes `cleanup` (stop and
remove) on exit, and the environment's final spec state is Destroyed or
TeardownFailed, never Executing. -/
theorem C4_teardown_always_runs (w : SandboxWorld) (mem : Nat) (cpu : ℚ)
    (t : Nat) (code : String) (hfe : w.from_env = none)
    (hcr : (∃ cid, w.create1 = CreateOutcome.ok cid)
      ∨ (∃ m cid, w.create1 = CreateOutcome.dockerError m
          ∧ w.create2 = CreateOutcome.ok cid)) :
    ((CodeExecutionTool.execute_sandboxed w mem cpu t code).env.getLast? =
        some EnvState.Destroyed
      ∨ (CodeExecutionTool.execute_sandboxed w mem cpu t code).env.getLast? =
        some EnvState.TeardownFailed)
    ∧ EnvState.Executing ∈ (CodeExecutionTool.execute_sandboxed w mem cpu t code).env
    ∧ (CodeExecutionTool.execute_sandboxed w mem cpu t code).env.getLast? ≠
        some EnvState.Executing
    ∧ Effect.cleanupCall ∈ (CodeExecutionTool.execute_sandboxed w mem cpu t code).effects
    ∧ Effect.stopRemove ∈ (CodeExecutionTool.execute_sandboxed w mem cpu t code).effects := by
  obtain ⟨fe, c1, c2, ex, st, cl⟩ := w
  simp only at hfe hcr
  subst hfe
  rcases hcr with ⟨cid, hc1⟩ | ⟨m, cid, hc1, hc2⟩ <;> subst hc1
  · cases st <;> cases cl <;>
      simp [CodeExecutionTool.execute_sandboxed, SandboxExecutor.create_container,
        SandboxExecutor.execute_in_container, SandboxExecutor.cleanup,
        SandboxExecutor.get_resource_usage, ResourceLimiter.monitor_resources,
        CodeExecutionTool.exc_result]
  · subst hc2
    cases st <;> cases cl <;>
      simp [CodeExecutionTool.execute_sandboxed, SandboxExecutor.create_container,
        SandboxExecutor.execute_in_container, SandboxExecutor.cleanup,
        SandboxExecutor.get_resource_usage, ResourceLimiter.monitor_resources,
        CodeExecutionTool.exc_result]

/-- Witness for C4: a fresh environment, a successful run, and a clean
teardown. -/
theorem C4_teardown_always_runs_witness :
    ((CodeExecutionTool.execute_sandboxed
        ⟨none, CreateOutcome.ok 7, CreateOutcome.ok 8,
          ExecOutcome.finished 0 (some "2\n") none,
          StatsOutcome.ok ⟨5, 1, 10, 2, 1048576⟩, CleanupOutcome.ok⟩
        128 (1 / 2) 30 "print(1+1)").env.getLast? = some EnvState.Destroyed
      ∨ (CodeExecutionTool.execute_sandboxed
        ⟨none, CreateOutcome.ok 7, CreateOutcome.ok 8,
          ExecOutcome.finished 0 (some "2\n") none,
          StatsOutcome.ok ⟨5, 1, 10, 2, 1048576⟩, CleanupOutcome.ok⟩
        128 (1 / 2) 30 "print(1+1)").env.getLast? = some EnvState.TeardownFailed)
    ∧ EnvState.Executing ∈ (CodeExecutionTool.execute_sandboxed
        ⟨none, CreateOutcome.ok 7, CreateOutcome.ok 8,
          ExecOutcome.finished 0 (some "2\n") none,
          StatsOutcome.ok ⟨5, 1, 10, 2, 1048576⟩, CleanupOutcome.ok⟩
        128 (1 / 2) 30 "print(1+1)").env
    ∧ (CodeExecutionTool.execute_sandboxed
        ⟨none, CreateOutcome.ok 7, CreateOutcome.ok 8,
          ExecOutcome.finished 0 (some "2\n") none,
          StatsOutcome.ok ⟨5, 1, 10, 2, 1048576⟩, CleanupOutcome.ok⟩
        128 (1 / 2) 30 "print(1+1)").env.getLast? ≠ some EnvState.Executing
    ∧ Effect.cleanupCall ∈ (CodeExecutionTool.execute_sandboxed
        ⟨none, CreateOutcome.ok 7, CreateOutcome.ok 8,
          ExecOutcome.finished 0 (some "2\n") none,
          StatsOutcome.ok ⟨5, 1, 10, 2, 1048576⟩, CleanupOutcome.ok⟩
        128 (1 / 2) 30 "print(1+1)").effects
    ∧ Effect.stopRemove ∈ (CodeExecutionTool.execute_sandboxed
        ⟨none, CreateOutcome.ok 7, CreateOutcome.ok 8,
          ExecOutcome.finished 0 (some "2\n") none,
          StatsOutcome.ok ⟨5, 1, 10, 2, 1048576⟩, CleanupOutcome.ok⟩
        128 (1 / 2) 30 "print(1+1)").effects :=
  C4_teardown_always_runs
    ⟨none, CreateOutcome.ok 7, CreateOutcome.ok 8,
      ExecOutcome.finished 0 (some "2\n") none,
      StatsOutcome.ok ⟨5, 1, 10, 2, 1048576⟩, CleanupOutcome.ok⟩
    128 (1 / 2) 30 "print(1+1)" rfl (Or.inl ⟨7, rfl⟩)

/-- Claim C8 counterexample: the governor rounds every reported percentage to
two decimal places, so the reported CPU percent is not equal to the exact
delta quotient times 100 (here 100/3 is reported as 33.33), and a tiny
memory usage over a 128 MiB ceiling is reported as exactly 0 although the
exact quotient is positive. -/
theorem C8_counterexample :
    (ResourceLimiter.monitor_resources (StatsOutcome.ok ⟨1, 0, 3, 0, 1⟩)
        ⟨0, 134217728, 50000, 100000⟩).cpu_percent ≠
      some ((((1 : ℚ) - 0) / ((3 : ℚ) - 0)) * 100)
    ∧ (ResourceLimiter.monitor_resources (StatsOutcome.ok ⟨1, 0, 3, 0, 1⟩)
        ⟨0, 134217728, 50000, 100000⟩).memory_percent ≠
      some (((1 : ℚ) / (134217728 : ℚ)) * 100)
    ∧ (ResourceLimiter.monitor_resources (StatsOutcome.ok ⟨1, 0, 3, 0, 1⟩)
        ⟨0, 134217728, 50000, 100000⟩).cpu_percent = some (3333 / 100 : ℚ)
    ∧ (ResourceLimiter.monitor_resources (StatsOutcome.ok ⟨1, 0, 3, 0, 1⟩)
        ⟨0, 134217728, 50000, 100000⟩).memory_percent = some (0 : ℚ) := by
  refine ⟨?_, ?_, ?_, ?_⟩ <;>
    norm_num [ResourceLimiter.monitor_resources, round2, roundHalfEven]

/-- Claim C8 as amended: on a live environment the reported CPU percent is the
delta of cumulative CPU time between the two samples divided by the delta of
total system CPU time over the same window, times 100, rounded to two decimal
places (0 with a non-positive system delta, i.e. no prior baseline); the
reported memory percent is current usage over the configured ceiling times
100, likewise rounded (0 when the ceiling is zero); memory MB is usage over
2^20, rounded. -/
theorem C8_amended_usage_formulas (sp : StatsSample) (c : ContainerState)
    (hsys : sp.presystem_cpu < sp.system_cpu) (hmem : 0 < c.mem_limit_bytes)
    (sp2 : StatsSample) (hz : sp2.system_cpu ≤ sp2.presystem_cpu)
    (c2 : ContainerState) (hz2 : c2.mem_limit_bytes = 0) :
    (ResourceLimiter.monitor_resources (StatsOutcome.ok sp) c).cpu_percent =
      some (round2 ((((sp.cpu_total - sp.precpu_total : Int) : ℚ) /
        ((sp.system_cpu - sp.presystem_cpu : Int) : ℚ)) * 100))
    ∧ (ResourceLimiter.monitor_resources (StatsOutcome.ok sp) c).memory_percent =
      some (round2 (((sp.memory_usage : ℚ) / (c.mem_limit_bytes : ℚ)) * 100))
    ∧ (ResourceLimiter.monitor_resources (StatsOutcome.ok sp) c).memory_mb =
      some (round2 ((sp.memory_usage : ℚ) / 1048576))
    ∧ (ResourceLimiter.monitor_resources (StatsOutcome.ok sp2) c).cpu_percent =
      some (0 : ℚ)
    ∧ (ResourceLimiter.monitor_resources (StatsOutcome.ok sp) c2).memory_percent =
      some (0 : ℚ) := by
  have h1 : (0 : Int) < sp.system_cpu - sp.presystem_cpu := by omega
  have h2 : ¬ ((0 : Int) < sp2.system_cpu - sp2.presystem_cpu) := by omega
  have h3 : round2 0 = 0 := by norm_num [round2, roundHalfEven]
  refine ⟨?_, ?_, ?_, ?_, ?_⟩ <;>
    simp [ResourceLimiter.monitor_resources, h1, h2, h3, hmem, hz2]

/-- Witness for the amended C8 at a concrete sample: CPU counters 5→1 over a
system window 10→2 give round2(400/8·… ) = 50%, memory 1 MiB of 128 MiB gives
0.78%, plus the two no-baseline/zero-ceiling cases. -/
theorem C8_amended_usage_formulas_witness :
    (ResourceLimiter.monitor_resources (StatsOutcome.ok ⟨5, 1, 10, 2, 1048576⟩)
        ⟨1, 134217728, 50000, 100000⟩).cpu_percent =
      some (round2 ((((5 - 1 : Int) : ℚ) / ((10 - 2 : Int) : ℚ)) * 100))
    ∧ (ResourceLimiter.monitor_resources (StatsOutcome.ok ⟨5, 1, 10, 2, 1048576⟩)
        ⟨1, 134217728, 50000, 100000⟩).memory_percent =
      some (round2 ((((1048576 : Nat) : ℚ) / ((134217728 : Nat) : ℚ)) * 100))
    ∧ (ResourceLimiter.monitor_resources (StatsOutcome.ok ⟨5, 1, 10, 2, 1048576⟩)
        ⟨1, 134217728, 50000, 100000⟩).memory_mb =
      some (round2 (((1048576 : Nat) : ℚ) / 1048576))
    ∧ (ResourceLimiter.monitor_resources (StatsOutcome.ok ⟨7, 7, 4, 9, 0⟩)
        ⟨1, 134217728, 50000, 100000⟩).cpu_percent = some (0 : ℚ)
    ∧ (ResourceLimiter.monitor_resources (StatsOutcome.ok ⟨5, 1, 10, 2, 1048576⟩)
        ⟨2, 0, 50000, 100000⟩).memory_percent = some (0 : ℚ) :=
  C8_amended_usage_formulas ⟨5, 1, 10, 2, 1048576⟩ ⟨1, 134217728, 50000, 100000⟩
    (by decide) (by decide) ⟨7, 7, 4, 9, 0⟩ (by decide)
    ⟨2, 0, 50000, 100000⟩ rfl

/-- Claim C9: on a live environment, `update_limits` applies each supplied
quota to the running container (same identity — no recreation), leaves the
quota of an omitted argument unchanged, and a subsequent `usage()` computes
the memory percentage against the new ceiling. -/
theorem C9_update_limits_live (s : SandboxExecutor) (c : ContainerState)
    (hc : s.container = some c) (mb : Nat) (hmb : 0 < mb) (q : ℚ)
    (sp : StatsSample) :
    SandboxExecutor.update_limits UpdateOutcome.ok UpdateOutcome.ok s (some mb) none =
      ({ s with container := some ⟨c.id, mb * 1048576, c.cpu_quota, c.cpu_period⟩ },
        ⟨true, none, some ⟨true, none⟩, none⟩)
    ∧ SandboxExecutor.update_limits UpdateOutcome.ok UpdateOutcome.ok s none (some q) =
      ({ s with container := some ⟨c.id, c.mem_limit_bytes, pyInt (q * 100000), 100000⟩ },
        ⟨true, none, none, some ⟨true, none⟩⟩)
    ∧ SandboxExecutor.update_limits UpdateOutcome.ok UpdateOutcome.ok s none none =
      (s, ⟨true, none, none, none⟩)
    ∧ (SandboxExecutor.get_resource_usage (StatsOutcome.ok sp)
        (SandboxExecutor.update_limits UpdateOutcome.ok UpdateOutcome.ok s
          (some mb) none).1).2.memory_percent =
      some (round2 (((sp.memory_usage : ℚ) / ((mb * 1048576 : Nat) : ℚ)) * 100)) := by
  have hpos : 0 < mb * 1048576 := by positivity
  obtain ⟨im, tm, mm, cq, co⟩ := s
  simp only at hc
  subst hc
  refine ⟨?_, ?_, ?_, ?_⟩ <;>
    simp [SandboxExecutor.update_limits, ResourceLimiter.set_memory_limit,
      ResourceLimiter.set_cpu_limit, SandboxExecutor.get_resource_usage,
      ResourceLimiter.monitor_resources, hpos]

/-- Witness for C9: a 256 MB update on a live 128 MB container, followed by a
usage sample computed against the 256 MiB ceiling. -/
theorem C9_update_limits_live_witness :
    SandboxExecutor.update_limits UpdateOutcome.ok UpdateOutcome.ok
        ⟨"python:3.11-slim", 30, 128, 1 / 2, some ⟨3, 134217728, 50000, 100000⟩⟩
        (some 256) none =
      (⟨"python:3.11-slim", 30, 128, 1 / 2, some ⟨3, 268435456, 50000, 100000⟩⟩,
        ⟨true, none, some ⟨true, none⟩, none⟩)
    ∧ SandboxExecutor.update_limits UpdateOutcome.ok UpdateOutcome.ok
        ⟨"python:3.11-slim", 30, 128, 1 / 2, some ⟨3, 134217728, 50000, 100000⟩⟩
        none (some (4 / 5)) =
      (⟨"python:3.11-slim", 30, 128, 1 / 2, some ⟨3, 134217728, 80000, 100000⟩⟩,
        ⟨true, none, none, some ⟨true, none⟩⟩)
    ∧ SandboxExecutor.update_limits UpdateOutcome.ok UpdateOutcome.ok
        ⟨"python:3.11-slim", 30, 128, 1 / 2, some ⟨3, 134217728, 50000, 100000⟩⟩
        none none =
      (⟨"python:3.11-slim", 30, 128, 1 / 2, some ⟨3, 134217728, 50000, 100000⟩⟩,
        ⟨true, none, none, none⟩)
    ∧ (SandboxExecutor.get_resource_usage (StatsOutcome.ok ⟨5, 1, 10, 2, 134217728⟩)
        (SandboxExecutor.update_limits UpdateOutcome.ok UpdateOutcome.ok
          ⟨"python:3.11-slim", 30, 128, 1 / 2, some ⟨3, 134217728, 50000, 100000⟩⟩
          (some 256) none).1).2.memory_percent =
      some (round2 ((((134217728 : Nat) : ℚ) / (((256 * 1048576 : Nat)) : ℚ)) * 100)) := by
  have h := C9_update_limits_live
    ⟨"python:3.11-slim", 30, 128, 1 / 2, some ⟨3, 134217728, 50000, 100000⟩⟩
    ⟨3, 134217728, 50000, 100000⟩ rfl 256 (by decide) (4 / 5)
    ⟨5, 1, 10, 2, 134217728⟩
  have h2 := h.2.1
  norm_num [pyInt] at h2
  exact ⟨h.1, h2, h.2.2.1, h.2.2.2⟩

/-- Claim C10: at the orchestrator's interface a per-call timeout of `0` (a
falsy value) is replaced by the instance default — `execute(code, timeout=0)`
behaves identically to omitting the argument, and in direct mode a timeout is
then reported against the instance default deadline — whereas the direct
executor substitutes its default only for `None` and runs a literal `0`
argument under a 0-second deadline. -/
theorem C10_falsy_timeout_replaced (parse : ParseOracle)
    (spawn : Except PyExc RunOutput) (w : SandboxWorld) (tool : CodeExecutionTool)
    (code : String) (sandbox : Option Bool) (m : String)
    (hp : parse code = ParseOutcome.ok)
    (htool : tool.use_sandbox = false) (hsb : pyTruthy sandbox = false)
    (dt : Nat) :
    CodeExecutionTool.execute parse spawn w tool code sandbox (some 0) =
      CodeExecutionTool.execute parse spawn w tool code sandbox none
    ∧ CodeExecutionTool.execute parse (.error ⟨"TimeoutExpired", m⟩) w tool code
        sandbox (some 0) =
      Except.ok ⟨⟨false, none,
        some ("Execution timed out after " ++ toString tool.timeout ++ " seconds"),
        some "TimeoutError", false, none⟩, [Effect.spawnWorker], []⟩
    ∧ (CodeExecutor.execute parse (.error ⟨"TimeoutExpired", m⟩) dt code
        (some 0)).2 =
      Except.ok ⟨false, none,
        some ("Execution timed out after " ++ toString (0 : Nat) ++ " seconds"),
        some "TimeoutError"⟩
    ∧ (CodeExecutor.execute parse (.error ⟨"TimeoutExpired", m⟩) dt code none).2
      = Except.ok ⟨false, none,
        some ("Execution timed out after " ++ toString dt ++ " seconds"),
        some "TimeoutError"⟩ := by
  refine ⟨rfl, ?_, ?_, ?_⟩ <;>
    simp [CodeExecutionTool.execute, CodeExecutor.execute,
      CodeExecutor.validate_syntax, hp, htool, hsb, pyOr]

/-- Witness for C10 at a concrete tool with default timeout 30. -/
theorem C10_falsy_timeout_replaced_witness :
    CodeExecutionTool.execute (fun _ => ParseOutcome.ok)
        (.error ⟨"TimeoutExpired", "timed out"⟩)
        ⟨none, CreateOutcome.ok 7, CreateOutcome.ok 8,
          ExecOutcome.finished 0 (some "hi") none,
          StatsOutcome.ok ⟨5, 1, 10, 2, 1048576⟩, CleanupOutcome.ok⟩
        ⟨false, 128, 1 / 2, 30⟩ "while True: pass" none (some 0) =
      CodeExecutionTool.execute (fun _ => ParseOutcome.ok)
        (.error ⟨"TimeoutExpired", "timed out"⟩)
        ⟨none, CreateOutcome.ok 7, CreateOutcome.ok 8,
          ExecOutcome.finished 0 (some "hi") none,
          StatsOutcome.ok ⟨5, 1, 10, 2, 1048576⟩, CleanupOutcome.ok⟩
        ⟨false, 128, 1 / 2, 30⟩ "while True: pass" none none
    ∧ CodeExecutionTool.execute (fun _ => ParseOutcome.ok)
        (.error ⟨"TimeoutExpired", "timed out"⟩)
        ⟨none, CreateOutcome.ok 7, CreateOutcome.ok 8,
          ExecOutcome.finished 0 (some "hi") none,
          StatsOutcome.ok ⟨5, 1, 10, 2, 1048576⟩, CleanupOutcome.ok⟩
        ⟨false, 128, 1 / 2, 30⟩ "while True: pass" none (some 0) =
      Except.ok ⟨⟨false, none,
        some ("Execution timed out after " ++ toString (30 : Nat) ++ " seconds"),
        some "TimeoutError", false, none⟩, [Effect.spawnWorker], []⟩
    ∧ (CodeExecutor.execute (fun _ => ParseOutcome.ok)
        (.error ⟨"TimeoutExpired", "timed out"⟩) 30 "while True: pass"
        (some 0)).2 =
      Except.ok ⟨false, none,
        some ("Execution timed out after " ++ toString (0 : Nat) ++ " seconds"),
        some "TimeoutError"⟩
    ∧ (CodeExecutor.execute (fun _ => ParseOutcome.ok)
        (.error ⟨"TimeoutExpired", "timed out"⟩) 30 "while True: pass"
        none).2 =
      Except.ok ⟨false, none,
        some ("Execution timed out after " ++ toString (30 : Nat) ++ " seconds"),
        some "TimeoutError"⟩ :=
  C10_falsy_timeout_replaced (fun _ => ParseOutcome.ok)
    (.error ⟨"TimeoutExpired", "timed out"⟩)
    ⟨none, CreateOutcome.ok 7, CreateOutcome.ok 8,
      ExecOutcome.finished 0 (some "hi") none,
      StatsOutcome.ok ⟨5, 1, 10, 2, 1048576⟩, CleanupOutcome.ok⟩
    ⟨false, 128, 1 / 2, 30⟩ "while True: pass" none "timed out" rfl rfl rfl 30

/-- Claim C7 counterexample: the syntax gate guards `ast.parse` with
`except SyntaxError` only, so a source on which the parser raises an exception
of another class — on Python 3.11, a lone-surrogate string literal raises
`UnicodeEncodeError` — escapes the orchestrator's `execute` as an exception
instead of being returned as structured data, in sandbox mode and in direct
mode alike, refuting the claim that no exception is thrown past the
orchestrator boundary. -/
theorem C7_counterexample :
    CodeExecutionTool.execute
        (fun _ => ParseOutcome.raised
          ⟨"UnicodeEncodeError", "surrogates not allowed"⟩)
        (Except.ok ⟨0, "", ""⟩)
        ⟨none, CreateOutcome.ok 7, CreateOutcome.ok 8,
          ExecOutcome.finished 0 (some "hi") none,
          StatsOutcome.ok ⟨5, 1, 10, 2, 1048576⟩, CleanupOutcome.ok⟩
        ⟨true, 128, 1 / 2, 30⟩ "x = \"\\ud800\"" none none =
      Except.error ⟨"UnicodeEncodeError", "surrogates not allowed"⟩
    ∧ CodeExecutionTool.execute
        (fun _ => ParseOutcome.raised
          ⟨"UnicodeEncodeError", "surrogates not allowed"⟩)
        (Except.ok ⟨0, "", ""⟩)
        ⟨none, CreateOutcome.ok 7, CreateOutcome.ok 8,
          ExecOutcome.finished 0 (some "hi") none,
          StatsOutcome.ok ⟨5, 1, 10, 2, 1048576⟩, CleanupOutcome.ok⟩
        ⟨false, 128, 1 / 2, 30⟩ "x = \"\\ud800\"" none none =
      Except.error ⟨"UnicodeEncodeError", "surrogates not allowed"⟩ :=
  ⟨rfl, rfl⟩

/-- Claim C7 as amended: every governor operation returns its outcome —
including every error case — as structured data and never raises, and every
failure of an external call made after syntax validation (raising runtime-
client construction, raising worker spawn, an exception inside the container)
is returned as structured data by the orchestrator and by
`execute_in_container`; but an exception other than `SyntaxError` raised by
the parser during validation escapes the orchestrator's `execute` to the
caller, in every mode, because the gate catches only `SyntaxError`. -/
theorem C7_errors_returned_as_data (e1 e2 e3 e4 e5 e6 e7 : PyExc)
    (c : ContainerState) (q : ℚ) (mb : Nat) (parse : ParseOracle) (code : String)
    (hp : parse code = ParseOutcome.ok) (tool1 tool2 tool3 : CodeExecutionTool)
    (h1 : tool1.use_sandbox = true) (h2 : tool2.use_sandbox = false)
    (h4 : e4.name ≠ "TimeoutExpired") (w : SandboxWorld) (wc : CreateOutcome)
    (s : SandboxExecutor) (hs : s.container = some c)
    (parse2 : ParseOracle) (code2 : String)
    (hraise : parse2 code2 = ParseOutcome.raised e7)
    (spawn2 : Except PyExc RunOutput) :
    ResourceLimiter.set_cpu_limit (.raised e1) c q = (c, ⟨false, some e1.msg⟩)
    ∧ ResourceLimiter.set_memory_limit (.raised e2) c mb = (c, ⟨false, some e2.msg⟩)
    ∧ ResourceLimiter.monitor_resources (.raised e3) c =
      ⟨false, none, none, none, some e3.msg⟩
    ∧ CodeExecutionTool.execute parse (.error e4) { w with from_env := some e5 }
        tool1 code none none =
      Except.ok ⟨⟨false, none, some e5.msg, some e5.name, true, none⟩, [], []⟩
    ∧ CodeExecutionTool.execute parse (.error e4) w tool2 code none none =
      Except.ok ⟨⟨false, none, some e4.msg, some e4.name, false, none⟩,
        [Effect.spawnWorker], []⟩
    ∧ (SandboxExecutor.execute_in_container wc (.raised e6) s code).2.2 =
      Except.ok ⟨false, none, some e6.msg, some e6.name⟩
    ∧ CodeExecutionTool.execute parse2 spawn2 w tool3 code2 none none =
      Except.error e7 := by
  refine ⟨rfl, rfl, rfl, ?_, ?_, ?_, ?_⟩
  · simp [CodeExecutionTool.execute, CodeExecutor.validate_syntax, hp, h1,
      CodeExecutionTool.execute_sandboxed, CodeExecutionTool.exc_result]
  · simp [CodeExecutionTool.execute, CodeExecutor.execute,
      CodeExecutor.validate_syntax, hp, h2, pyTruthy, h4]
  · simp [SandboxExecutor.execute_in_container, hs, SandboxExecutor.exec_body]
  · simp [CodeExecutionTool.execute, CodeExecutor.validate_syntax, hraise]

/-- Witness for the amended C7 with concrete exceptions at every external call
site, including a `MemoryError` raised by the parser on a deeply nested
source, which escapes the orchestrator. -/
theorem C7_errors_returned_as_data_witness :
    ResourceLimiter.set_cpu_limit (.raised ⟨"APIError", "update failed"⟩)
        ⟨3, 134217728, 50000, 100000⟩ (1 / 2) =
      (⟨3, 134217728, 50000, 100000⟩, ⟨false, some "update failed"⟩)
    ∧ ResourceLimiter.set_memory_limit (.raised ⟨"APIError", "update failed"⟩)
        ⟨3, 134217728, 50000, 100000⟩ 256 =
      (⟨3, 134217728, 50000, 100000⟩, ⟨false, some "update failed"⟩)
    ∧ ResourceLimiter.monitor_resources (.raised ⟨"APIError", "stats failed"⟩)
        ⟨3, 134217728, 50000, 100000⟩ =
      ⟨false, none, none, none, some "stats failed"⟩
    ∧ CodeExecutionTool.execute (fun _ => ParseOutcome.ok)
        (.error ⟨"OSError", "spawn failed"⟩)
        { (⟨none, CreateOutcome.ok 7, CreateOutcome.ok 8,
            ExecOutcome.finished 0 (some "hi") none,
            StatsOutcome.ok ⟨5, 1, 10, 2, 1048576⟩, CleanupOutcome.ok⟩ :
          SandboxWorld) with
          from_env := some ⟨"DockerException", "daemon unreachable"⟩ }
        ⟨true, 128, 1 / 2, 30⟩ "print(1)" none none =
      Except.ok ⟨⟨false, none, some "daemon unreachable", some "DockerException",
        true, none⟩, [], []⟩
    ∧ CodeExecutionTool.execute (fun _ => ParseOutcome.ok)
        (.error ⟨"OSError", "spawn failed"⟩)
        ⟨none, CreateOutcome.ok 7, CreateOutcome.ok 8,
          ExecOutcome.finished 0 (some "hi") none,
          StatsOutcome.ok ⟨5, 1, 10, 2, 1048576⟩, CleanupOutcome.ok⟩
        ⟨false, 128, 1 / 2, 30⟩ "print(1)" none none =
      Except.ok ⟨⟨false, none, some "spawn failed", some "OSError", false, none⟩,
        [Effect.spawnWorker], []⟩
    ∧ (SandboxExecutor.execute_in_container (CreateOutcome.ok 7)
        (.raised ⟨"UnicodeDecodeError", "invalid byte"⟩)
        ⟨"python:3.11-slim", 30, 128, 1 / 2, some ⟨3, 134217728, 50000, 100000⟩⟩
        "print(1)").2.2 =
      Except.ok ⟨false, none, some "invalid byte", some "UnicodeDecodeError"⟩
    ∧ CodeExecutionTool.execute (fun _ => ParseOutcome.raised ⟨"MemoryError", ""⟩)
        (Except.ok ⟨0, "", ""⟩)
        ⟨none, CreateOutcome.ok 7, CreateOutcome.ok 8,
          ExecOutcome.finished 0 (some "hi") none,
          StatsOutcome.ok ⟨5, 1, 10, 2, 1048576⟩, CleanupOutcome.ok⟩
        ⟨true, 128, 1 / 2, 30⟩ "-(-(-(-(1))))" none none =
      Except.error ⟨"MemoryError", ""⟩ :=
  C7_errors_returned_as_data ⟨"APIError", "update failed"⟩
    ⟨"APIError", "update failed"⟩ ⟨"APIError", "stats failed"⟩
    ⟨"OSError", "spawn failed"⟩ ⟨"DockerException", "daemon unreachable"⟩
    ⟨"UnicodeDecodeError", "invalid byte"⟩ ⟨"MemoryError", ""⟩
    ⟨3, 134217728, 50000, 100000⟩
    (1 / 2) 256 (fun _ => ParseOutcome.ok) "print(1)" rfl ⟨true, 128, 1 / 2, 30⟩
    ⟨false, 128, 1 / 2, 30⟩ ⟨true, 128, 1 / 2, 30⟩ rfl rfl (by decide)
    ⟨none, CreateOutcome.ok 7, CreateOutcome.ok 8,
      ExecOutcome.finished 0 (some "hi") none,
      StatsOutcome.ok ⟨5, 1, 10, 2, 1048576⟩, CleanupOutcome.ok⟩
    (CreateOutcome.ok 7)
    ⟨"python:3.11-slim", 30, 128, 1 / 2, some ⟨3, 134217728, 50000, 100000⟩⟩ rfl
    (fun _ => ParseOutcome.raised ⟨"MemoryError", ""⟩) "-(-(-(-(1))))" rfl
    (Except.ok ⟨0, "", ""⟩)
